import Mathlib

/-!
Shallow embedding of the skill-swap Django module (src/skills/forms.py and
src/skills/views.py) together with proofs about its validation, ranking and
toggle logic.  Database tables are lists of records; querysets become list
pipelines (filter, map, sort, take); raised exceptions become Except values.
Ordering by a text column is embedded as byte-wise (code-point) lexicographic
comparison.  Sorting is embedded as an executable insertion sort; the claims
proved below only rely on the output being a sorted permutation of its input,
which is true of the ORM sort as well.
-/

namespace SkillSwap

/-- Boolean lexicographic order on lists of characters, by code point.  Embeds
the ordering a database applies to a text column in ORDER BY name. -/
def lexLe : List Char → List Char → Bool
  | [], _ => true
  | _ :: _, [] => false
  | a :: as, b :: bs =>
    if a.toNat < b.toNat then true
    else if b.toNat < a.toNat then false
    else lexLe as bs

/-- Boolean lexicographic order on strings, by code point. -/
def strLe (a b : String) : Bool := lexLe a.data b.data

/-- Insert an element into a list before the first element it compares
less-or-equal to. -/
def insertLe (le : α → α → Bool) (a : α) : List α → List α
  | [] => [a]
  | b :: bs => if le a b then a :: b :: bs else b :: insertLe le a bs

/-- Executable insertion sort by a boolean comparison; embeds ORDER BY. -/
def sortByLe (le : α → α → Bool) : List α → List α
  | [] => []
  | a :: as => insertLe le a (sortByLe le as)

/-- A row of the SkillCategory table: id, name and active flag
(models.SkillCategory, referenced throughout src/skills). -/
structure SkillCategory where
  id : Nat
  name : String
  is_active : Bool
deriving DecidableEq, Repr

/-- A row of the Skill table: id, name, foreign key to its category and a
creation timestamp (used by the "recent" sort in SkillListView). -/
structure Skill where
  id : Nat
  name : String
  category : Nat
  created_at : Nat
deriving DecidableEq, Repr

/-- A row of the OfferedSkill table.  Only the columns the verified logic
touches are carried: user and skill foreign keys, the active flag, the rolling
average rating and the total session count.  Form-only metadata columns
(proficiency, description, years of experience, teaching preference) play no
role in any verified property and are omitted. -/
structure OfferedSkill where
  id : Nat
  user : Nat
  skill : Nat
  is_active : Bool
  average_rating : ℚ
  total_sessions : Nat
deriving DecidableEq, Repr

/-- A row of the DesiredSkill table; metadata columns (urgency, levels,
learning preference) are omitted as above. -/
structure DesiredSkill where
  id : Nat
  user : Nat
  skill : Nat
  is_active : Bool
deriving DecidableEq, Repr

/-- The database state seen by this module: the four tables it reads or
writes.  SkillMatch rows are not needed by any claim below. -/
structure Db where
  categories : List SkillCategory
  skills : List Skill
  offered : List OfferedSkill
  desired : List DesiredSkill
deriving DecidableEq, Repr

/-- Embeds the queryset condition filter(category__is_active=True): the
skill joins to a category row that is active (views.py:23, 65, 258, 297). -/
def categoryActive (db : Db) (s : Skill) : Bool :=
  db.categories.any (fun c => c.id == s.category && c.is_active)

/-- Embeds annotate(offered_count=Count("offered_by_users")): the number of
OfferedSkill rows referencing the skill (views.py:24, 66, 259, 298).  The ORM
Count is over all related rows: there is no distinct=True and no filter on
is_active. -/
def offeredCount (db : Db) (s : Skill) : Nat :=
  db.offered.countP (fun o => o.skill == s.id)

/-- Embeds order_by("-offered_count", "name"): descending annotated count,
ascending name as tiebreak (views.py:41, 68, 261, 300). -/
def trendLe (a b : Skill × Nat) : Bool :=
  decide (b.2 < a.2) || (a.2 == b.2 && strLe a.1.name b.1.name)

/-- Embeds order_by("-created_at", "name") for the "recent" sort
(views.py:43). -/
def recentLe (a b : Skill × Nat) : Bool :=
  decide (b.1.created_at < a.1.created_at) ||
    (a.1.created_at == b.1.created_at && strLe a.1.name b.1.name)

/-- Embeds order_by("name") on annotated skills (views.py:45). -/
def annNameLe (a b : Skill × Nat) : Bool := strLe a.1.name b.1.name

/-- Embeds SkillListView.get_context_data, trending branch (views.py:64-68):
active-category skills annotated with offered_count, restricted to
offered_count strictly positive, ordered by descending count then ascending
name, capped to 15 rows. -/
def trendingSkills (db : Db) : List (Skill × Nat) :=
  (sortByLe trendLe
    (((db.skills.filter (fun s => categoryActive db s)).map
        (fun s => (s, offeredCount db s))).filter
      (fun p => decide (0 < p.2)))).take 15

/-- Embeds TrendingSkillsMoreView.get_queryset (views.py:294-300): the same
pipeline as the compact trending list, with no cap. -/
def trendingSkillsMore (db : Db) : List (Skill × Nat) :=
  sortByLe trendLe
    (((db.skills.filter (fun s => categoryActive db s)).map
        (fun s => (s, offeredCount db s))).filter
      (fun p => decide (0 < p.2)))

/-- Embeds the base queryset of SkillListView.get_queryset (views.py:23-25):
active-category skills annotated with their offered count. -/
def annotatedActiveSkills (db : Db) : List (Skill × Nat) :=
  (db.skills.filter (fun s => categoryActive db s)).map
    (fun s => (s, offeredCount db s))

/-- Embeds the optional category filter of SkillListView (views.py:33-34). -/
def applyCategoryFilter (category : Option Nat) (qs : List (Skill × Nat)) :
    List (Skill × Nat) :=
  match category with
  | some c => qs.filter (fun p => p.1.category == c)
  | none => qs

/-- Embeds the optional skill filter of SkillListView (views.py:36-37). -/
def applySkillFilter (skill : Option Nat) (qs : List (Skill × Nat)) :
    List (Skill × Nat) :=
  match skill with
  | some i => qs.filter (fun p => p.1.id == i)
  | none => qs

/-- Embeds the sort dispatch of SkillListView (views.py:40-45): popular,
recent, or name by default. -/
def applySort (sortKey : String) (qs : List (Skill × Nat)) : List (Skill × Nat) :=
  if sortKey = "popular" then sortByLe trendLe qs
  else if sortKey = "recent" then sortByLe recentLe qs
  else sortByLe annNameLe qs

/-- Embeds SkillListView.get_queryset (views.py:22-47): active-category skills
annotated with offered_count, optionally filtered by a category id and a skill
id (query parameters, modelled post-parse), then sorted by the requested
key. -/
def skillListQueryset (db : Db) (category skill : Option Nat) (sortKey : String) :
    List (Skill × Nat) :=
  applySort sortKey (applySkillFilter skill (applyCategoryFilter category
    (annotatedActiveSkills db)))

/-- ASCII lowering of one character; embeds the case folding done by the
icontains lookup. -/
def lowerChar (c : Char) : Char :=
  if 65 ≤ c.toNat && c.toNat ≤ 90 then Char.ofNat (c.toNat + 32) else c

/-- Lowercased character list of a string. -/
def lowerStr (s : String) : List Char := s.data.map lowerChar

/-- Boolean test that the first list begins the second. -/
def beginsWith : List Char → List Char → Bool
  | [], _ => true
  | _ :: _, [] => false
  | a :: as, b :: bs => a == b && beginsWith as bs

/-- Boolean substring test: the needle occurs contiguously in the haystack. -/
def containsSub (needle : List Char) : List Char → Bool
  | [] => beginsWith needle []
  | b :: bs => beginsWith needle (b :: bs) || containsSub needle bs

/-- Embeds the name__icontains=term lookup: case-insensitive substring match
(views.py:236). -/
def icontains (hay needle : String) : Bool :=
  containsSub (lowerStr needle) (lowerStr hay)

/-- Embeds SkillAutocompleteView (views.py:231-241):
filter(name__icontains=term)[:10], serialized as (id, name) pairs.  There is
no filter on the category of the skill or on its activity. -/
def autocompleteResults (db : Db) (term : String) : List (Nat × String) :=
  ((db.skills.filter (fun s => icontains s.name term)).take 10).map
    (fun s => (s.id, s.name))

/-- Blank characters stripped by Python int() from a string argument. -/
def isSpaceChar (c : Char) : Bool :=
  c == ' ' || c == '\t' || c == '\n' || c == '\r'

/-- Strip leading and trailing blanks from a character list. -/
def stripChars (cs : List Char) : List Char :=
  ((cs.dropWhile isSpaceChar).reverse.dropWhile isSpaceChar).reverse

/-- Decimal value of a digit list. -/
def digitsToNat (cs : List Char) : Nat :=
  cs.foldl (fun n c => n * 10 + (c.toNat - 48)) 0

/-- Embeds Python int() applied to a string, as the ORM does when an integer
column is filtered by a string value: strip blanks, then an optional sign
followed by at least one decimal digit; anything else raises ValueError,
embedded as none.  (Digit-group underscores accepted by Python are not
modelled; no verified property exercises them.) -/
def pyInt? (s : String) : Option Int :=
  match stripChars s.data with
  | [] => none
  | c :: cs =>
    if c == '-' then
      if !cs.isEmpty && cs.all Char.isDigit then some (-(digitsToNat cs : Int))
      else none
    else if c == '+' then
      if !cs.isEmpty && cs.all Char.isDigit then some ((digitsToNat cs : Int))
      else none
    else if (c :: cs).all Char.isDigit then some ((digitsToNat (c :: cs) : Int))
    else none

/-- Embeds order_by("name") on Skill rows (views.py:271, 281; forms.py). -/
def skillNameLe (a b : Skill) : Bool := strLe a.name b.name

/-- Embeds get_skills_by_category (views.py:266-274).  The category_id query
parameter is an optional raw string.  A missing or empty (falsy) value yields
the empty skill list.  Otherwise filter(category_id=category_id) coerces the
string with int(): a non-numeric value raises ValueError, which the view does
not catch (embedded as Except.error); a numeric value yields the (id, name)
pairs of that category, ordered by name.  No filter on category activity is
applied. -/
def getSkillsByCategory (db : Db) (category_id : Option String) :
    Except Unit (List (Nat × String)) :=
  match category_id with
  | none => Except.ok []
  | some s =>
    if s == "" then Except.ok []
    else
      match pyInt? s with
      | none => Except.error ()
      | some n =>
        Except.ok ((sortByLe skillNameLe
          (db.skills.filter (fun sk => ((sk.category : Int) == n)))).map
            (fun sk => (sk.id, sk.name)))

/-- Embeds get_skills_by_category_public (views.py:277-284), whose body is
textually identical to the authenticated variant; only the login_required
decorator differs, which is outside the response computation. -/
def getSkillsByCategoryPublic (db : Db) (category_id : Option String) :
    Except Unit (List (Nat × String)) :=
  match category_id with
  | none => Except.ok []
  | some s =>
    if s == "" then Except.ok []
    else
      match pyInt? s with
      | none => Except.error ()
      | some n =>
        Except.ok ((sortByLe skillNameLe
          (db.skills.filter (fun sk => ((sk.category : Int) == n)))).map
            (fun sk => (sk.id, sk.name)))

/-- The two ValidationError kinds raised by OfferedSkillForm.clean and
DesiredSkillForm.clean (forms.py:54, 60, 116, 121).  The duplicate error
carries the skill name interpolated into the message text. -/
inductive FormError where
  | categoryMismatch
  | duplicateSkill (skillName : String)
deriving DecidableEq, Repr

/-- Embeds the exclusion argument exclude(pk=self.instance.pk if
self.instance.pk else None) (forms.py:58, 119): a primary key is passed only
when it is truthy (Python treats 0 as falsy); exclude(pk=None) excludes no
row. -/
def excludedPk (instancePk : Option Nat) : Option Nat :=
  match instancePk with
  | some p => if p ≠ 0 then some p else none
  | none => none

/-- Embeds the duplicate branch of OfferedSkillForm.clean (forms.py:57-60):
when both a cleaned skill and an instance user are present, the user rows for
that skill other than the record being edited must be empty, else
ValidationError("You already offer {skill.name}."). -/
def offeredDupCheck (db : Db) (skill : Option Skill) (user : Option Nat)
    (instancePk : Option Nat) : Except FormError Unit :=
  match skill, user with
  | some sk, some u =>
    if !((db.offered.filter (fun o => o.user == u && o.skill == sk.id)).filter
        (fun o => !(excludedPk instancePk == some o.id))).isEmpty then
      Except.error (FormError.duplicateSkill sk.name)
    else Except.ok ()
  | _, _ => Except.ok ()

/-- Embeds the duplicate branch of DesiredSkillForm.clean (forms.py:118-121),
identical to the offered variant but over the DesiredSkill table. -/
def desiredDupCheck (db : Db) (skill : Option Skill) (user : Option Nat)
    (instancePk : Option Nat) : Except FormError Unit :=
  match skill, user with
  | some sk, some u =>
    if !((db.desired.filter (fun d => d.user == u && d.skill == sk.id)).filter
        (fun d => !(excludedPk instancePk == some d.id))).isEmpty then
      Except.error (FormError.duplicateSkill sk.name)
    else Except.ok ()
  | _, _ => Except.ok ()

/-- Embeds OfferedSkillForm.clean (forms.py:46-62).  Inputs are the cleaned
skill and category fields (absent on field-validation failure), the user read
from the bound instance with getattr(self.instance, "user", None), and the
instance primary key.  The category check compares the foreign key of the
skill with the chosen category row (model equality is primary-key
equality). -/
def offeredClean (db : Db) (skill : Option Skill) (skill_category : Option SkillCategory)
    (user : Option Nat) (instancePk : Option Nat) : Except FormError Unit :=
  match skill, skill_category with
  | some sk, some cat =>
    if sk.category ≠ cat.id then Except.error FormError.categoryMismatch
    else offeredDupCheck db (some sk) user instancePk
  | _, _ => offeredDupCheck db skill user instancePk

/-- Embeds DesiredSkillForm.clean (forms.py:108-123), identical in structure
to the offered variant. -/
def desiredClean (db : Db) (skill : Option Skill) (skill_category : Option SkillCategory)
    (user : Option Nat) (instancePk : Option Nat) : Except FormError Unit :=
  match skill, skill_category with
  | some sk, some cat =>
    if sk.category ≠ cat.id then Except.error FormError.categoryMismatch
    else desiredDupCheck db (some sk) user instancePk
  | _, _ => desiredDupCheck db skill user instancePk

/-- A freshly created OfferedSkill row.  Modelled from the spec for the
columns absent from src/ (models.py is not part of the sources): a record is
created active, and rating and session count start at zero and are recomputed
externally. -/
def newOfferedRow (pk u skillId : Nat) : OfferedSkill :=
  ⟨pk, u, skillId, true, 0, 0⟩

/-- A freshly created DesiredSkill row, active on creation as above. -/
def newDesiredRow (pk u skillId : Nat) : DesiredSkill :=
  ⟨pk, u, skillId, true⟩

/-- Embeds the create flow OfferedSkillCreateView (views.py:125-133) driving
OfferedSkillForm.  The framework validates the form first: the bound instance
is a fresh unsaved row, so its pk is None and getattr(instance, "user", None)
yields None (the user foreign key is unset; the missing-attribute error is an
AttributeError subtype).  Only afterwards does form_valid assign
form.instance.user = request.user and save the row. -/
def createOfferedSkill (db : Db) (requestUser : Nat) (sk : Skill)
    (cat : SkillCategory) (newPk : Nat) : Except FormError Db :=
  match offeredClean db (some sk) (some cat) none none with
  | Except.error e => Except.error e
  | Except.ok _ =>
    Except.ok { db with offered := db.offered ++ [newOfferedRow newPk requestUser sk.id] }

/-- Embeds DesiredSkillCreateView (views.py:172-180), with the same
validate-then-assign-user ordering as the offered variant. -/
def createDesiredSkill (db : Db) (requestUser : Nat) (sk : Skill)
    (cat : SkillCategory) (newPk : Nat) : Except FormError Db :=
  match desiredClean db (some sk) (some cat) none none with
  | Except.error e => Except.error e
  | Except.ok _ =>
    Except.ok { db with desired := db.desired ++ [newDesiredRow newPk requestUser sk.id] }

/-- Request-level failures of the edit flow: the not-found response of the
ownership-scoped queryset, or a form validation error. -/
inductive ViewError where
  | notFound
  | invalid (e : FormError)
deriving DecidableEq, Repr

/-- Embeds the edit flow OfferedSkillUpdateView (views.py:136-143): the object
is fetched from the ownership-scoped queryset filter(user=request.user) (a
miss is a 404), the form is validated against that bound instance (user and pk
now populated), and on success the edited row is saved in place. -/
def updateOfferedSkill (db : Db) (requestUser pk : Nat) (sk : Skill)
    (cat : SkillCategory) : Except ViewError Db :=
  match db.offered.find? (fun o => o.id == pk && o.user == requestUser) with
  | none => Except.error ViewError.notFound
  | some r =>
    match offeredClean db (some sk) (some cat) (some r.user) (some r.id) with
    | Except.error e => Except.error (ViewError.invalid e)
    | Except.ok _ =>
      Except.ok { db with offered := (db.offered.map
        (fun o => if o.id == r.id then { o with skill := sk.id } else o)) }

/-- Flip applied to the rows selected by get_object_or_404(OfferedSkill,
pk=pk, user=request.user). -/
def flipOffered (requestUser pk : Nat) (o : OfferedSkill) : OfferedSkill :=
  if o.id == pk && o.user == requestUser then { o with is_active := !o.is_active } else o

/-- Embeds toggle_offered_skill (views.py:155-160): fetch the record by pk
scoped to the requesting user; a miss is a 404 leaving the store unchanged; a
hit negates is_active and saves. -/
def toggleOffered (db : Db) (requestUser pk : Nat) : Db :=
  match db.offered.find? (fun o => o.id == pk && o.user == requestUser) with
  | none => db
  | some _ => { db with offered := db.offered.map (flipOffered requestUser pk) }

/-- Flip applied to the rows selected by get_object_or_404(DesiredSkill,
pk=pk, user=request.user). -/
def flipDesired (requestUser pk : Nat) (d : DesiredSkill) : DesiredSkill :=
  if d.id == pk && d.user == requestUser then { d with is_active := !d.is_active } else d

/-- Embeds toggle_desired_skill (views.py:202-207). -/
def toggleDesired (db : Db) (requestUser pk : Nat) : Db :=
  match db.desired.find? (fun d => d.id == pk && d.user == requestUser) with
  | none => db
  | some _ => { db with desired := db.desired.map (flipDesired requestUser pk) }

/-- Embeds order_by("-average_rating", "-total_sessions"): descending average
rating, descending session count as tiebreak (views.py:322, 342). -/
def tutorLe (a b : OfferedSkill) : Bool :=
  decide (b.average_rating < a.average_rating) ||
    (decide (a.average_rating = b.average_rating) && decide (b.total_sessions ≤ a.total_sessions))

/-- Embeds FindTutorsView.get_queryset (views.py:337-342): active OfferedSkill
rows for the skill, ordered by descending rating then descending sessions,
unbounded. -/
def findTutors (db : Db) (skillId : Nat) : List OfferedSkill :=
  sortByLe tutorLe (db.offered.filter (fun o => o.skill == skillId && o.is_active))

/-- Embeds the top_tutors queryset of SkillDetailView.get_context_data
(views.py:319-322): the same pipeline capped to 3 rows. -/
def topTutors (db : Db) (skillId : Nat) : List OfferedSkill :=
  (sortByLe tutorLe (db.offered.filter (fun o => o.skill == skillId && o.is_active))).take 3

/-- Name of the skill referenced by a foreign key, for the skill__name sort
column of TutorProfileView (views.py:366). -/
def skillNameOf (db : Db) (skillId : Nat) : String :=
  match db.skills.find? (fun s => s.id == skillId) with
  | some s => s.name
  | none => ""

/-- Embeds order_by("-average_rating", "skill__name") (views.py:366). -/
def profileLe (db : Db) (a b : OfferedSkill) : Bool :=
  decide (b.average_rating < a.average_rating) ||
    (decide (a.average_rating = b.average_rating) &&
      strLe (skillNameOf db a.skill) (skillNameOf db b.skill))

/-- The filter underlying the tutor profile: filter(user=tutor,
is_active=True) (views.py:363-364). -/
def activeOffersOf (db : Db) (tutor : Nat) : List OfferedSkill :=
  db.offered.filter (fun o => o.user == tutor && o.is_active)

/-- Embeds the offered_skills queryset of TutorProfileView.get_context_data
(views.py:363-366). -/
def tutorOfferedSkills (db : Db) (tutor : Nat) : List OfferedSkill :=
  sortByLe (profileLe db) (activeOffersOf db tutor)

/-- Embeds the overall rating of TutorProfileView (views.py:371-375):
aggregate(avg_rating=Avg("average_rating")) yields None on an empty queryset
and the arithmetic mean otherwise; the value is then forced with Python
"or 0", which maps both None and a zero mean to 0. -/
def tutorOverallRating (db : Db) (tutor : Nat) : ℚ :=
  let rows := tutorOfferedSkills db tutor
  let avg : Option ℚ :=
    if rows.isEmpty then none
    else some ((rows.map OfferedSkill.average_rating).sum / (rows.length : ℚ))
  match avg with
  | none => 0
  | some v => if v = 0 then 0 else v

/-- Embeds the session total of TutorProfileView (views.py:376): a Python sum
of total_sessions over the offered_skills queryset. -/
def tutorTotalSessions (db : Db) (tutor : Nat) : Nat :=
  ((tutorOfferedSkills db tutor).map OfferedSkill.total_sessions).sum

/-- Spec notion (section 4.4): the mean of a list of ratings, 0 when the list
is empty. -/
def meanRating (l : List ℚ) : ℚ :=
  if l = [] then 0 else l.sum / (l.length : ℚ)

/-- Spec notion (glossary, "Trending"): the number of distinct users with an
active OfferedSkill row for the skill. -/
def distinctActiveOfferingUsers (db : Db) (s : Skill) : Nat :=
  (((db.offered.filter (fun o => o.skill == s.id && o.is_active)).map
    OfferedSkill.user).dedup).length

/-- Example data: an active category. -/
def catProg : SkillCategory := ⟨1, "Programming", true⟩

/-- Example data: an inactive category. -/
def catOld : SkillCategory := ⟨2, "Retired", false⟩

/-- Example data: a skill in the active category. -/
def skGo : Skill := ⟨10, "Go", 1, 100⟩

/-- Example data: a skill in the active category. -/
def skPy : Skill := ⟨11, "Python", 1, 101⟩

/-- Example data: a skill in the active category whose only offer is
inactive. -/
def skRust : Skill := ⟨12, "Rust", 1, 102⟩

/-- Example data: a skill in the inactive category. -/
def skCobol : Skill := ⟨20, "Cobol", 2, 50⟩

/-- Example database used by the concrete witnesses and counterexamples. -/
def db0 : Db :=
  { categories := [catProg, catOld],
    skills := [skGo, skPy, skRust, skCobol],
    offered := [⟨100, 1, 10, true, 4, 12⟩, ⟨101, 2, 10, true, 5, 3⟩,
                ⟨102, 1, 11, true, 4, 12⟩, ⟨103, 3, 11, true, 3, 7⟩,
                ⟨104, 4, 12, false, 2, 1⟩, ⟨105, 5, 20, true, 5, 9⟩],
    desired := [⟨200, 1, 12, true⟩] }

theorem lexLe_total : ∀ as bs : List Char, lexLe as bs = true ∨ lexLe bs as = true
  | [], _ => Or.inl rfl
  | _ :: _, [] => Or.inr rfl
  | a :: as, b :: bs => by
    rcases Nat.lt_trichotomy a.toNat b.toNat with h | h | h
    · left
      simp [lexLe, h]
    · have h1 : ¬ a.toNat < b.toNat := by omega
      have h2 : ¬ b.toNat < a.toNat := by omega
      simpa [lexLe, h1, h2] using lexLe_total as bs
    · right
      simp [lexLe, h]

theorem lexLe_trans : ∀ as bs cs : List Char,
    lexLe as bs = true → lexLe bs cs = true → lexLe as cs = true
  | [], _, _, _, _ => rfl
  | _ :: _, [], _, h, _ => by simp [lexLe] at h
  | _ :: _, _ :: _, [], _, h => by simp [lexLe] at h
  | a :: as, b :: bs, c :: cs, hab, hbc => by
    by_cases h1 : a.toNat < b.toNat
    · by_cases h2 : b.toNat < c.toNat
      · have : a.toNat < c.toNat := by omega
        simp [lexLe, this]
      · by_cases h3 : c.toNat < b.toNat
        · simp [lexLe, h2, h3] at hbc
        · have hbc' : b.toNat = c.toNat := by omega
          have : a.toNat < c.toNat := by omega
          simp [lexLe, this]
    · by_cases h1' : b.toNat < a.toNat
      · simp [lexLe, h1, h1'] at hab
      · have hab' : a.toNat = b.toNat := by omega
        simp only [lexLe, h1, h1', if_false] at hab
        by_cases h2 : b.toNat < c.toNat
        · have : a.toNat < c.toNat := by omega
          simp [lexLe, this]
        · by_cases h3 : c.toNat < b.toNat
          · simp [lexLe, h2, h3] at hbc
          · simp only [lexLe, h2, h3, if_false] at hbc
            have h4 : ¬ a.toNat < c.toNat := by omega
            have h5 : ¬ c.toNat < a.toNat := by omega
            simp [lexLe, h4, h5, lexLe_trans as bs cs hab hbc]

theorem strLe_total (a b : String) : strLe a b = true ∨ strLe b a = true :=
  lexLe_total a.data b.data

theorem strLe_trans {a b c : String} (h1 : strLe a b = true) (h2 : strLe b c = true) :
    strLe a c = true :=
  lexLe_trans a.data b.data c.data h1 h2

theorem insertLe_perm (le : α → α → Bool) (a : α) :
    ∀ l : List α, (insertLe le a l).Perm (a :: l)
  | [] => List.Perm.refl _
  | b :: bs => by
    by_cases h : le a b = true
    · simp [insertLe, h]
    · simp only [insertLe, h, if_false]
      exact ((insertLe_perm le a bs).cons b).trans (List.Perm.swap a b bs)

theorem sortByLe_perm (le : α → α → Bool) : ∀ l : List α, (sortByLe le l).Perm l
  | [] => List.Perm.refl _
  | a :: as =>
    (insertLe_perm le a (sortByLe le as)).trans ((sortByLe_perm le as).cons a)

theorem mem_sortByLe {le : α → α → Bool} {l : List α} {x : α} :
    x ∈ sortByLe le l ↔ x ∈ l :=
  (sortByLe_perm le l).mem_iff

theorem mem_insertLe {le : α → α → Bool} {a x : α} {l : List α} :
    x ∈ insertLe le a l ↔ x = a ∨ x ∈ l := by
  rw [(insertLe_perm le a l).mem_iff, List.mem_cons]

theorem pairwise_insertLe {le : α → α → Bool}
    (htot : ∀ a b, le a b = true ∨ le b a = true)
    (htrans : ∀ a b c, le a b = true → le b c = true → le a c = true)
    (a : α) : ∀ l : List α, l.Pairwise (fun x y => le x y = true) →
      (insertLe le a l).Pairwise (fun x y => le x y = true)
  | [], _ => List.Pairwise.cons (by simp) List.Pairwise.nil
  | b :: bs, h => by
    rcases List.pairwise_cons.mp h with ⟨hb, hbs⟩
    by_cases hab : le a b = true
    · simp only [insertLe, hab, if_true]
      refine List.pairwise_cons.mpr ⟨?_, h⟩
      intro x hx
      rcases List.mem_cons.mp hx with rfl | hx
      · exact hab
      · exact htrans a b x hab (hb x hx)
    · simp only [insertLe, hab, if_false]
      refine List.pairwise_cons.mpr ⟨?_, pairwise_insertLe htot htrans a bs hbs⟩
      intro x hx
      rcases mem_insertLe.mp hx with rfl | hx
      · rcases htot x b with h' | h'
        · exact absurd h' hab
        · exact h'
      · exact hb x hx

theorem pairwise_sortByLe {le : α → α → Bool}
    (htot : ∀ a b, le a b = true ∨ le b a = true)
    (htrans : ∀ a b c, le a b = true → le b c = true → le a c = true) :
    ∀ l : List α, (sortByLe le l).Pairwise (fun x y => le x y = true)
  | [] => List.Pairwise.nil
  | a :: as =>
    pairwise_insertLe htot htrans a (sortByLe le as)
      (pairwise_sortByLe htot htrans as)

example : trendingSkillsMore db0 = [(skGo, 2), (skPy, 2), (skRust, 1)] := by decide
example : trendingSkills db0 = [(skGo, 2), (skPy, 2), (skRust, 1)] := by decide
example : Except.map (fun db' => db'.offered.countP (fun o => o.user == 1 && o.skill == 10))
    (createOfferedSkill db0 1 skGo catProg 106) = Except.ok 2 := rfl
example : Except.map (fun db' => db'.desired.countP (fun d => d.user == 1 && d.skill == 12))
    (createDesiredSkill db0 1 skRust catProg 201) = Except.ok 2 := rfl
example : updateOfferedSkill db0 1 100 skGo catProg = Except.ok db0 := rfl
example : updateOfferedSkill db0 1 100 skPy catProg =
    Except.error (ViewError.invalid (FormError.duplicateSkill "Python")) := rfl
example : getSkillsByCategory db0 (some "abc") = Except.error () := rfl
example : getSkillsByCategory db0 (some "2") = Except.ok [(20, "Cobol")] := rfl
example : getSkillsByCategory db0 (some "1") =
    Except.ok [(10, "Go"), (11, "Python"), (12, "Rust")] := rfl
example : autocompleteResults db0 "obo" = [(20, "Cobol")] := by decide
example : toggleOffered (toggleOffered db0 1 100) 1 100 = db0 := by decide
example : toggleOffered db0 9 100 = db0 := by decide
example : tutorTotalSessions db0 1 = 24 := by decide
example : offeredCount db0 skRust = 1 := by decide
example : distinctActiveOfferingUsers db0 skRust = 0 := by decide
example : findTutors db0 10 = [⟨101, 2, 10, true, 5, 3⟩, ⟨100, 1, 10, true, 4, 12⟩] := by decide
example : offeredClean db0 (some skCobol) (some catProg) none none =
    Except.error FormError.categoryMismatch := rfl

theorem trendLe_iff (a b : Skill × Nat) :
    trendLe a b = true ↔ (b.2 < a.2 ∨ (a.2 = b.2 ∧ strLe a.1.name b.1.name = true)) := by
  simp [trendLe]

theorem trendLe_total (a b : Skill × Nat) : trendLe a b = true ∨ trendLe b a = true := by
  rcases Nat.lt_trichotomy a.2 b.2 with h | h | h
  · exact Or.inr ((trendLe_iff b a).mpr (Or.inl h))
  · rcases strLe_total a.1.name b.1.name with hs | hs
    · exact Or.inl ((trendLe_iff a b).mpr (Or.inr ⟨h, hs⟩))
    · exact Or.inr ((trendLe_iff b a).mpr (Or.inr ⟨h.symm, hs⟩))
  · exact Or.inl ((trendLe_iff a b).mpr (Or.inl h))

theorem trendLe_trans (a b c : Skill × Nat) (hab : trendLe a b = true)
    (hbc : trendLe b c = true) : trendLe a c = true := by
  rw [trendLe_iff] at hab hbc ⊢
  rcases hab with h1 | ⟨h1, h1'⟩
  · rcases hbc with h2 | ⟨h2, _⟩
    · exact Or.inl (h2.trans h1)
    · exact Or.inl (by omega)
  · rcases hbc with h2 | ⟨h2, h2'⟩
    · exact Or.inl (by omega)
    · exact Or.inr ⟨by omega, strLe_trans h1' h2'⟩

theorem tutorLe_iff (a b : OfferedSkill) :
    tutorLe a b = true ↔ (b.average_rating < a.average_rating ∨
      (a.average_rating = b.average_rating ∧ b.total_sessions ≤ a.total_sessions)) := by
  simp [tutorLe]

theorem tutorLe_total (a b : OfferedSkill) : tutorLe a b = true ∨ tutorLe b a = true := by
  rcases lt_trichotomy a.average_rating b.average_rating with h | h | h
  · exact Or.inr ((tutorLe_iff b a).mpr (Or.inl h))
  · rcases Nat.le_total b.total_sessions a.total_sessions with hs | hs
    · exact Or.inl ((tutorLe_iff a b).mpr (Or.inr ⟨h, hs⟩))
    · exact Or.inr ((tutorLe_iff b a).mpr (Or.inr ⟨h.symm, hs⟩))
  · exact Or.inl ((tutorLe_iff a b).mpr (Or.inl h))

theorem tutorLe_trans (a b c : OfferedSkill) (hab : tutorLe a b = true)
    (hbc : tutorLe b c = true) : tutorLe a c = true := by
  rw [tutorLe_iff] at hab hbc ⊢
  rcases hab with h1 | ⟨h1, h1'⟩
  · rcases hbc with h2 | ⟨h2, _⟩
    · exact Or.inl (h2.trans h1)
    · exact Or.inl (h2 ▸ h1)
  · rcases hbc with h2 | ⟨h2, h2'⟩
    · exact Or.inl (h1 ▸ h2)
    · exact Or.inr ⟨h1.trans h2, h2'.trans h1'⟩

theorem skillNameLe_total (a b : Skill) : skillNameLe a b = true ∨ skillNameLe b a = true :=
  strLe_total a.name b.name

theorem skillNameLe_trans (a b c : Skill) (hab : skillNameLe a b = true)
    (hbc : skillNameLe b c = true) : skillNameLe a c = true :=
  strLe_trans hab hbc

/-- C3: for every catalog state, each entry of the unbounded trending list is
an active-category skill paired with its own offer count, that count is
strictly positive, the list is sorted by descending offer count with ascending
name as tiebreak, and the 15-capped trending list of the catalog page is a
prefix of the unbounded list served by the more view. -/
theorem C3_trending_shape (db : Db) :
    (∀ p ∈ trendingSkillsMore db,
      categoryActive db p.1 = true ∧ 0 < p.2 ∧ p.2 = offeredCount db p.1) ∧
    (trendingSkillsMore db).Pairwise (fun a b => trendLe a b = true) ∧
    trendingSkills db = (trendingSkillsMore db).take 15 ∧
    trendingSkills db ++ (trendingSkillsMore db).drop 15 = trendingSkillsMore db := by
  refine ⟨?_, pairwise_sortByLe trendLe_total trendLe_trans _, rfl,
    List.take_append_drop 15 _⟩
  intro p hp
  rw [trendingSkillsMore, mem_sortByLe, List.mem_filter] at hp
  obtain ⟨hmem, hpos⟩ := hp
  rw [List.mem_map] at hmem
  obtain ⟨s, hs, rfl⟩ := hmem
  rw [List.mem_filter] at hs
  exact ⟨hs.2, by simpa using hpos, rfl⟩

/-- C4: for every skill, the unbounded tutor list holds exactly the active
offered-skill rows for that skill (a permutation of them, hence the same
members with the same multiplicities), sorted by descending average rating
with descending total sessions as tiebreak, and the top-3 summary of the
detail page is a prefix of it. -/
theorem C4_tutor_ranking (db : Db) (skillId : Nat) :
    (∀ o, o ∈ findTutors db skillId ↔
      (o ∈ db.offered ∧ o.skill = skillId ∧ o.is_active = true)) ∧
    (findTutors db skillId).Perm
      (db.offered.filter (fun o => o.skill == skillId && o.is_active)) ∧
    (findTutors db skillId).Pairwise (fun a b => tutorLe a b = true) ∧
    topTutors db skillId = (findTutors db skillId).take 3 ∧
    topTutors db skillId ++ (findTutors db skillId).drop 3 = findTutors db skillId := by
  refine ⟨?_, sortByLe_perm _ _, pairwise_sortByLe tutorLe_total tutorLe_trans _, rfl,
    List.take_append_drop 3 _⟩
  intro o
  rw [findTutors, mem_sortByLe, List.mem_filter]
  simp [Bool.and_eq_true, and_assoc]

/-- C10: on every input, the authenticated category-scoped skill lookup and
its public variant compute identical response bodies; the two view bodies are
the same code and differ only in the login_required decorator. -/
theorem C10_public_variant_identical (db : Db) (category_id : Option String) :
    getSkillsByCategory db category_id = getSkillsByCategoryPublic db category_id := rfl

/-- C1: evaluation of the creation flow at a failing input.  In db0 user 1
already offers skill 10 (Go) via row 100, yet submitting the creation form for
(user 1, Go) again succeeds and persists a second row for the pair: the create
view validates the form before assigning request.user to the instance, so
clean reads user as None and skips the duplicate check entirely.  The desired
variant misbehaves the same way.  The second half of the claim does hold:
editing row 100 while keeping its own skill raises no duplicate error, since
the row being edited is excluded by its pk. -/
theorem C1_create_skips_duplicate_check :
    Except.map (fun db' => db'.offered.countP (fun o => o.user == 1 && o.skill == 10))
      (createOfferedSkill db0 1 skGo catProg 106) = Except.ok 2 ∧
    Except.map (fun db' => db'.desired.countP (fun d => d.user == 1 && d.skill == 12))
      (createDesiredSkill db0 1 skRust catProg 201) = Except.ok 2 ∧
    updateOfferedSkill db0 1 100 skGo catProg = Except.ok db0 :=
  ⟨rfl, rfl, rfl⟩

/-- C2: a submission whose chosen skill belongs to a different category than
the chosen category fails validation with the category-mismatch error, for
both the offered and the desired form and for any instance state, and the
creation flows reject such a pair outright — they return the error and produce
no new store, so nothing is written. -/
theorem C2_category_mismatch_rejected (db : Db) (sk : Skill) (cat : SkillCategory)
    (user instancePk : Option Nat) (requestUser newPk : Nat)
    (h : sk.category ≠ cat.id) :
    offeredClean db (some sk) (some cat) user instancePk =
      Except.error FormError.categoryMismatch ∧
    desiredClean db (some sk) (some cat) user instancePk =
      Except.error FormError.categoryMismatch ∧
    createOfferedSkill db requestUser sk cat newPk =
      Except.error FormError.categoryMismatch ∧
    createDesiredSkill db requestUser sk cat newPk =
      Except.error FormError.categoryMismatch := by
  have ho : ∀ u ipk, offeredClean db (some sk) (some cat) u ipk =
      Except.error FormError.categoryMismatch := by
    intro u ipk
    simp [offeredClean, h]
  have hd : ∀ u ipk, desiredClean db (some sk) (some cat) u ipk =
      Except.error FormError.categoryMismatch := by
    intro u ipk
    simp [desiredClean, h]
  refine ⟨ho user instancePk, hd user instancePk, ?_, ?_⟩
  · rw [createOfferedSkill, ho none none]
  · rw [createDesiredSkill, hd none none]

/-- Witness for C2 at a concrete mismatching pair: skCobol lives in category 2
while catProg has id 1. -/
theorem C2_witness :
    offeredClean db0 (some skCobol) (some catProg) none none =
      Except.error FormError.categoryMismatch ∧
    desiredClean db0 (some skCobol) (some catProg) none none =
      Except.error FormError.categoryMismatch ∧
    createOfferedSkill db0 9 skCobol catProg 300 =
      Except.error FormError.categoryMismatch ∧
    createDesiredSkill db0 9 skCobol catProg 300 =
      Except.error FormError.categoryMismatch :=
  C2_category_mismatch_rejected db0 skCobol catProg none none 9 300 (by decide)

/-- C5 counterexample: a malformed (non-numeric) category id does not yield an
empty list — the integer coercion inside filter(category_id=...) raises an
uncaught ValueError, embedded as Except.error. -/
theorem C5_counterexample :
    getSkillsByCategory db0 (some "abc") = Except.error () := rfl

/-- C5 as amended: an absent or empty category id yields the empty list; a
numeric id yields exactly the (id, name) pairs of that category, ordered by
name; but a malformed (nonempty, non-numeric) id raises an uncaught error
instead of yielding an empty list. -/
theorem C5_lookup_behavior (db : Db) (s t : String) (n : Int)
    (hs : pyInt? s = some n) (hs0 : s ≠ "") (ht : pyInt? t = none) (ht0 : t ≠ "") :
    getSkillsByCategory db none = Except.ok [] ∧
    getSkillsByCategory db (some "") = Except.ok [] ∧
    getSkillsByCategory db (some t) = Except.error () ∧
    (∃ l, getSkillsByCategory db (some s) = Except.ok l ∧
      l.Pairwise (fun a b => strLe a.2 b.2 = true) ∧
      (∀ pr, pr ∈ l ↔ ∃ sk, sk ∈ db.skills ∧ (sk.category : Int) = n ∧
        pr = (sk.id, sk.name))) := by
  have hsb : (s == "") = false := by
    simpa using hs0
  have htb : (t == "") = false := by
    simpa using ht0
  refine ⟨rfl, rfl, ?_, ?_⟩
  · rw [getSkillsByCategory, htb]
    simp [ht]
  · refine ⟨(sortByLe skillNameLe
      (db.skills.filter (fun sk => ((sk.category : Int) == n)))).map
        (fun sk => (sk.id, sk.name)), ?_, ?_, ?_⟩
    · rw [getSkillsByCategory, hsb]
      simp [hs]
    · rw [List.pairwise_map]
      exact pairwise_sortByLe skillNameLe_total skillNameLe_trans _
    · intro pr
      rw [List.mem_map]
      constructor
      · rintro ⟨sk, hsk, rfl⟩
        rw [mem_sortByLe, List.mem_filter] at hsk
        exact ⟨sk, hsk.1, by simpa using hsk.2, rfl⟩
      · rintro ⟨sk, hsk, hcat, rfl⟩
        exact ⟨sk, by rw [mem_sortByLe, List.mem_filter]; exact ⟨hsk, by simpa using hcat⟩, rfl⟩

/-- Witness for C5 at concrete inputs: the id string "2" parses to 2 and the
string "abc" does not parse. -/
theorem C5_witness :
    getSkillsByCategory db0 none = Except.ok [] ∧
    getSkillsByCategory db0 (some "") = Except.ok [] ∧
    getSkillsByCategory db0 (some "abc") = Except.error () ∧
    (∃ l, getSkillsByCategory db0 (some "2") = Except.ok l ∧
      l.Pairwise (fun a b => strLe a.2 b.2 = true) ∧
      (∀ pr, pr ∈ l ↔ ∃ sk, sk ∈ db0.skills ∧ (sk.category : Int) = 2 ∧
        pr = (sk.id, sk.name))) :=
  C5_lookup_behavior db0 "2" "abc" 2 rfl (by decide) rfl (by decide)

/-- C6 counterexample: in db0 the only offered row for skRust is inactive, so
no user currently offers it, yet the annotated offer count is 1 — the ORM
Count has no is_active filter and no distinct=True. -/
theorem C6_counterexample :
    ¬ (offeredCount db0 skRust = distinctActiveOfferingUsers db0 skRust) := by
  decide

/-- C6 as amended: the annotated offer count is the raw number of
offered-skill rows for the skill, counting inactive rows and counting each row
separately.  It coincides with the number of distinct users currently offering
the skill exactly under the side conditions that every offered row for the
skill is active and no two such rows share a user. -/
theorem C6_offer_count (db : Db) (s : Skill)
    (hact : ∀ o ∈ db.offered, o.skill = s.id → o.is_active = true)
    (hnd : ((db.offered.filter (fun o => o.skill == s.id)).map
      OfferedSkill.user).Nodup) :
    offeredCount db s = distinctActiveOfferingUsers db s := by
  unfold offeredCount distinctActiveOfferingUsers
  have hfe : db.offered.filter (fun o => o.skill == s.id && o.is_active) =
      db.offered.filter (fun o => o.skill == s.id) := by
    apply List.filter_congr
    intro o ho
    by_cases h : o.skill = s.id
    · simp [h, hact o ho h]
    · simp [h]
  rw [hfe, List.dedup_eq_self.mpr hnd, List.length_map,
    List.countP_eq_length_filter]

/-- Witness for C6 on skGo in db0: both offers are active and come from
distinct users, and both sides evaluate to 2. -/
theorem C6_witness : offeredCount db0 skGo = distinctActiveOfferingUsers db0 skGo :=
  C6_offer_count db0 skGo (by decide) (by decide)

/-- C7 counterexample: skCobol belongs to the inactive category 2, yet the
autocomplete returns it for a matching term and the category-scoped lookup
returns it for the id 2 — neither endpoint filters on category activity. -/
theorem C7_counterexample :
    (20, "Cobol") ∈ autocompleteResults db0 "obo" ∧
    getSkillsByCategory db0 (some "2") = Except.ok [(20, "Cobol")] ∧
    skCobol ∈ db0.skills ∧ skCobol.id = 20 ∧ skCobol.name = "Cobol" ∧
    categoryActive db0 skCobol = false :=
  ⟨by decide, rfl, by decide, rfl, rfl, by decide⟩

/-- C7 as amended: the catalog list view itself does restrict to skills of
active categories, for every combination of filter and sort parameters; the
category-scoped AJAX lookup and the autocomplete carry no such restriction and
can return skills of inactive categories. -/
theorem C7_catalog_active_only (db : Db) (category skill : Option Nat)
    (sortKey : String) (p : Skill × Nat)
    (hp : p ∈ skillListQueryset db category skill sortKey) :
    categoryActive db p.1 = true := by
  have hbase : p ∈ annotatedActiveSkills db := by
    have h1 : p ∈ applySkillFilter skill (applyCategoryFilter category
        (annotatedActiveSkills db)) := by
      rw [skillListQueryset, applySort] at hp
      split at hp
      · exact mem_sortByLe.mp hp
      · split at hp
        · exact mem_sortByLe.mp hp
        · exact mem_sortByLe.mp hp
    have h2 : p ∈ applyCategoryFilter category (annotatedActiveSkills db) := by
      cases skill with
      | some i => exact (List.mem_filter.mp h1).1
      | none => exact h1
    cases category with
    | some c => exact (List.mem_filter.mp h2).1
    | none => exact h2
  rw [annotatedActiveSkills, List.mem_map] at hbase
  obtain ⟨s, hs, rfl⟩ := hbase
  exact (List.mem_filter.mp hs).2

/-- Witness for C7 as amended: the unfiltered name-sorted catalog of db0
contains the Go entry, whose category is active. -/
theorem C7_witness : categoryActive db0 skGo = true :=
  C7_catalog_active_only db0 none none "name" (skGo, 2) (by decide)

theorem flipOffered_invol (u pk : Nat) (o : OfferedSkill) :
    flipOffered u pk (flipOffered u pk o) = o := by
  cases o with
  | mk i us sk act r ts =>
    unfold flipOffered
    by_cases h : (i == pk && us == u) = true
    · simp [h]
    · simp [h]

theorem flipOffered_pred (u pk : Nat) (o : OfferedSkill) :
    ((flipOffered u pk o).id == pk && (flipOffered u pk o).user == u) =
      (o.id == pk && o.user == u) := by
  cases o with
  | mk i us sk act r ts =>
    unfold flipOffered
    by_cases h : (i == pk && us == u) = true
    · simp [h]
    · simp [h]

theorem toggleOffered_invol (db : Db) (u pk : Nat) :
    toggleOffered (toggleOffered db u pk) u pk = db := by
  cases hf : db.offered.find? (fun o => o.id == pk && o.user == u) with
  | none =>
    have h1 : toggleOffered db u pk = db := by
      unfold toggleOffered
      rw [hf]
    rw [h1, h1]
  | some r =>
    have h1 : toggleOffered db u pk =
        { db with offered := db.offered.map (flipOffered u pk) } := by
      unfold toggleOffered
      rw [hf]
    have hcomp : (fun o : OfferedSkill => o.id == pk && o.user == u) ∘ flipOffered u pk =
        fun o : OfferedSkill => o.id == pk && o.user == u :=
      funext (flipOffered_pred u pk)
    have hfind2 : (db.offered.map (flipOffered u pk)).find?
        (fun o => o.id == pk && o.user == u) = some (flipOffered u pk r) := by
      rw [List.find?_map, hcomp, hf]
      rfl
    rw [h1]
    unfold toggleOffered
    rw [hfind2]
    show ({ db with offered := ((db.offered.map (flipOffered u pk)).map (flipOffered u pk)) } : Db) = db
    rw [List.map_map]
    have : flipOffered u pk ∘ flipOffered u pk = id := funext (flipOffered_invol u pk)
    rw [this, List.map_id]

theorem toggleOffered_not_owner (db : Db) (u pk : Nat)
    (h : ∀ o ∈ db.offered, ¬(o.id = pk ∧ o.user = u)) : toggleOffered db u pk = db := by
  unfold toggleOffered
  have hf : db.offered.find? (fun o => o.id == pk && o.user == u) = none := by
    rw [List.find?_eq_none]
    intro o ho hp
    exact h o ho (by simpa using hp)
  rw [hf]

theorem flipDesired_invol (u pk : Nat) (d : DesiredSkill) :
    flipDesired u pk (flipDesired u pk d) = d := by
  cases d with
  | mk i us sk act =>
    unfold flipDesired
    by_cases h : (i == pk && us == u) = true
    · simp [h]
    · simp [h]

theorem flipDesired_pred (u pk : Nat) (d : DesiredSkill) :
    ((flipDesired u pk d).id == pk && (flipDesired u pk d).user == u) =
      (d.id == pk && d.user == u) := by
  cases d with
  | mk i us sk act =>
    unfold flipDesired
    by_cases h : (i == pk && us == u) = true
    · simp [h]
    · simp [h]

theorem toggleDesired_invol (db : Db) (u pk : Nat) :
    toggleDesired (toggleDesired db u pk) u pk = db := by
  cases hf : db.desired.find? (fun d => d.id == pk && d.user == u) with
  | none =>
    have h1 : toggleDesired db u pk = db := by
      unfold toggleDesired
      rw [hf]
    rw [h1, h1]
  | some r =>
    have h1 : toggleDesired db u pk =
        { db with desired := db.desired.map (flipDesired u pk) } := by
      unfold toggleDesired
      rw [hf]
    have hcomp : (fun d : DesiredSkill => d.id == pk && d.user == u) ∘ flipDesired u pk =
        fun d : DesiredSkill => d.id == pk && d.user == u :=
      funext (flipDesired_pred u pk)
    have hfind2 : (db.desired.map (flipDesired u pk)).find?
        (fun d => d.id == pk && d.user == u) = some (flipDesired u pk r) := by
      rw [List.find?_map, hcomp, hf]
      rfl
    rw [h1]
    unfold toggleDesired
    rw [hfind2]
    show ({ db with desired := ((db.desired.map (flipDesired u pk)).map (flipDesired u pk)) } : Db) = db
    rw [List.map_map]
    have : flipDesired u pk ∘ flipDesired u pk = id := funext (flipDesired_invol u pk)
    rw [this, List.map_id]

theorem toggleDesired_not_owner (db : Db) (u pk : Nat)
    (h : ∀ d ∈ db.desired, ¬(d.id = pk ∧ d.user = u)) : toggleDesired db u pk = db := by
  unfold toggleDesired
  have hf : db.desired.find? (fun d => d.id == pk && d.user == u) = none := by
    rw [List.find?_eq_none]
    intro d hd hp
    exact h d hd (by simpa using hp)
  rw [hf]

/-- C8: toggling any offered or desired record twice restores the store to its
exact original state (in particular the active flag of the targeted record),
and a toggle naming a record the requester does not own — including a record
of another user — changes nothing, because the lookup is scoped to
user=request.user and misses. -/
theorem C8_toggle_ownership (db : Db) (u pk u2 pk2 : Nat)
    (hoff : ∀ o ∈ db.offered, ¬(o.id = pk2 ∧ o.user = u2))
    (hdes : ∀ d ∈ db.desired, ¬(d.id = pk2 ∧ d.user = u2)) :
    toggleOffered (toggleOffered db u pk) u pk = db ∧
    toggleDesired (toggleDesired db u pk) u pk = db ∧
    toggleOffered db u2 pk2 = db ∧
    toggleDesired db u2 pk2 = db :=
  ⟨toggleOffered_invol db u pk, toggleDesired_invol db u pk,
    toggleOffered_not_owner db u2 pk2 hoff, toggleDesired_not_owner db u2 pk2 hdes⟩

/-- Witness for C8: user 1 toggles their own offered row 100 twice; user 9
owns nothing in db0, so their toggle attempts change nothing. -/
theorem C8_witness :
    toggleOffered (toggleOffered db0 1 100) 1 100 = db0 ∧
    toggleDesired (toggleDesired db0 1 100) 1 100 = db0 ∧
    toggleOffered db0 9 999 = db0 ∧
    toggleDesired db0 9 999 = db0 :=
  C8_toggle_ownership db0 1 100 9 999 (by decide) (by decide)

/-- C9: for every tutor, the profile aggregate equals the arithmetic mean of
the average ratings of the active offered rows of that tutor (0 when there are
none — the Avg aggregate yields None, forced to 0 by the Python or), together
with the sum of their session counts. -/
theorem C9_profile_aggregate (db : Db) (t : Nat) :
    tutorOverallRating db t =
      meanRating ((activeOffersOf db t).map OfferedSkill.average_rating) ∧
    tutorTotalSessions db t =
      ((activeOffersOf db t).map OfferedSkill.total_sessions).sum := by
  have hperm : (tutorOfferedSkills db t).Perm (activeOffersOf db t) :=
    sortByLe_perm _ _
  constructor
  · rw [tutorOverallRating, meanRating]
    by_cases hnil : activeOffersOf db t = []
    · have h2 : tutorOfferedSkills db t = [] := by
        rw [tutorOfferedSkills, hnil]
        rfl
      simp [h2, hnil]
    · have hne : tutorOfferedSkills db t ≠ [] :=
        fun h => hnil ((h ▸ hperm).symm.eq_nil)
      have h2 : (tutorOfferedSkills db t).isEmpty = false := by
        cases hl : tutorOfferedSkills db t with
        | nil => exact absurd hl hne
        | cons a l => rfl
      have hsum : ((tutorOfferedSkills db t).map OfferedSkill.average_rating).sum =
          ((activeOffersOf db t).map OfferedSkill.average_rating).sum :=
        (hperm.map _).sum_eq
      have hlen : (tutorOfferedSkills db t).length = (activeOffersOf db t).length :=
        hperm.length_eq
      have hmnil : ¬ ((activeOffersOf db t).map OfferedSkill.average_rating = []) := by
        simpa using hnil
      rw [if_neg hmnil]
      simp only [h2, Bool.false_eq_true, if_false]
      rw [hsum, hlen, List.length_map]
      split
      · next hv => rw [← hv]
      · rfl
  · rw [tutorTotalSessions]
    exact (hperm.map _).sum_eq

end SkillSwap
